import Mathlib

/-!
Shallow embedding of the Cuah-Quick backend (server.js and its revisions):
registration/login with validation, JWT+role guard middlewares, and the
order create/list/update handlers. Request bodies are records of `Option`
fields (a missing JSON key is `none`); JavaScript truthiness of a string
field (`undefined` and the empty string are falsy) and of a numeric field
(`undefined` and `0` are falsy) is made explicit. External primitives that
the spec lists as out-of-scope collaborators (bcrypt, jwt) enter as function
parameters, so every theorem holds for any implementation of them.
-/

namespace CuahQuick

/-- JavaScript truthiness of a possibly-absent string body field:
`undefined` and the empty string are falsy, everything else truthy. -/
def truthyStr : Option String → Bool
  | none => false
  | some s => s != ""

/-- JavaScript truthiness of a possibly-absent numeric body field:
`undefined` and `0` are falsy. -/
def truthyNat : Option Nat → Bool
  | none => false
  | some n => n != 0

/-- JWT payload signed and later attached to `req.user`: `{ id, role }`,
as built by `jwt.sign({ id: newUser.id, role: newUser.role }, ...)`. -/
structure Claims where
  id : Nat
  role : String
deriving Repr, DecidableEq

/-- One row of the `users` table, with the columns the INSERT in
`/api/register` writes. -/
structure UserRow where
  id : Nat
  full_name : String
  email : String
  password_hash : String
  phone : String
  role : String
  student_id : String
deriving Repr, DecidableEq

/-- The `users` table together with its auto-increment counter. -/
structure UsersDb where
  users : List UserRow
  nextId : Nat
deriving Repr, DecidableEq

/-- Body of `POST /api/register`. The handler destructures exactly
`full_name, email, password, phone, student_id`; a `role` key, if the
caller sends one, is never read. -/
structure RegisterBody where
  full_name : Option String
  email : Option String
  password : Option String
  phone : Option String
  student_id : Option String
  role : Option String
deriving Repr, DecidableEq

/-- The public user view returned on successful registration:
`{ id, full_name, email, role, student_id }` — built only from the
non-secret fields, with no `password_hash` field at all. -/
structure PublicUser where
  id : Nat
  full_name : String
  email : String
  role : String
  student_id : String
deriving Repr, DecidableEq

/-- Outcome of `POST /api/register`: an error JSON `{message}` with its
HTTP status, or HTTP 201 with `{message, token, user}`. -/
inductive RegisterResult
  | err (status : Nat) (message : String)
  | created (status : Nat) (token : String) (user : PublicUser)
deriving Repr, DecidableEq

def msgMissingFieldsReg : String :=
  "Todos los campos son obligatorios, incluyendo la Matrícula."
def msgInvalidDomain : String :=
  "El registro solo está permitido para correos que terminan en @ucq.edu.mx."
def msgStudentIdMismatch : String :=
  "La matrícula proporcionada no coincide con los números de tu correo institucional."
def msgMissingMatricula : String :=
  "Formato de correo institucional incorrecto. Debe contener la matrícula."
def msgDuplicateUser : String :=
  "El correo electrónico o la matrícula ya están registrados."
def msgInvalidCredentials : String :=
  "Credenciales inválidas."
def msgMissingToken : String :=
  "No autorizado, no se encontró token."
def msgInvalidToken : String :=
  "No autorizado, token fallido o expirado."
def msgForbidden : String :=
  "Acceso denegado. Se requiere rol de tienda."
def msgMissingOrderFields : String :=
  "Faltan campos obligatorios para el pedido."
def msgInvalidStatus : String :=
  "Estado inválido."
def msgOrderNotFound : String :=
  "Pedido no encontrado."

/-- `email.toLowerCase()` (ASCII case fold; the domain suffix under test is
pure ASCII). -/
def jsToLower (s : String) : String := String.mk (s.toList.map Char.toLower)

/-- The fixed institutional domain `requiredDomain = '@ucq.edu.mx'`. -/
def requiredDomain : String := "@ucq.edu.mx"

/-- `s.endsWith(suffix)`: the last characters of `s` are exactly `suffix`
(false when `s` is shorter than `suffix`). -/
def jsEndsWith (s suffix : String) : Bool :=
  s.toList.drop (s.toList.length - suffix.toList.length) == suffix.toList

/-- `email.split('@')[0]`: the substring before the first `@` (the whole
string when no `@` occurs). -/
def localPart (email : String) : String :=
  String.mk (email.toList.takeWhile (fun c => c != '@'))

/-- `localPart.match(/(\d+)$/)`: the maximal trailing run of ASCII digits
of a string (empty when the string does not end in a digit, i.e. the regex
does not match). -/
def trailingDigits (s : String) : String :=
  String.mk ((s.toList.reverse.takeWhile Char.isDigit).reverse)

/-- The conjunction `full_name && email && password && phone && student_id`
whose negation guards the `MissingFields` fast-fail of `/api/register`. -/
def regFieldsPresent (body : RegisterBody) : Bool :=
  truthyStr body.full_name && truthyStr body.email && truthyStr body.password &&
    truthyStr body.phone && truthyStr body.student_id

/-- `email.toLowerCase().endsWith(requiredDomain)`. -/
def regDomainOk (email : String) : Bool :=
  jsEndsWith (jsToLower email) requiredDomain

/-- Modelled from the spec: the `users` table's uniqueness constraints on
`email` and `student_id` live in the database schema, which is not under
src/ (the handler only catches the driver's `ER_DUP_ENTRY`). An INSERT that
collides with an existing row on either column raises that error; otherwise
the row is appended with the auto-increment id. -/
def insertUser (db : UsersDb) (full_name email password_hash phone role student_id : String) :
    Except Unit (Nat × UsersDb) :=
  if db.users.any (fun u => u.email == email || u.student_id == student_id) then
    .error ()
  else
    .ok (db.nextId,
      ⟨db.users ++ [⟨db.nextId, full_name, email, password_hash, phone, role, student_id⟩],
        db.nextId + 1⟩)

/-- `POST /api/register` (server.js lines 64-137). `bhash` is
`bcrypt.hash` (password, cost factor) and `sign` is `jwt.sign` on the
claims payload — both external primitives passed as parameters. Returns
the HTTP outcome and the resulting `users` table. -/
def register (bhash : String → Nat → String) (sign : Claims → String)
    (db : UsersDb) (body : RegisterBody) : RegisterResult × UsersDb :=
  if !regFieldsPresent body then
    (.err 400 msgMissingFieldsReg, db)
  else
    let email := body.email.getD ""
    let student_id := body.student_id.getD ""
    if !regDomainOk email then
      (.err 400 msgInvalidDomain, db)
    else
      let digits := trailingDigits (localPart email)
      if digits == "" then
        (.err 400 msgMissingMatricula, db)
      else if digits != student_id then
        (.err 400 msgStudentIdMismatch, db)
      else
        let finalRole := "client"
        let hashedPassword := bhash (body.password.getD "") 10
        match insertUser db (body.full_name.getD "") email hashedPassword
            (body.phone.getD "") finalRole student_id with
        | .error () => (.err 400 msgDuplicateUser, db)
        | .ok (newId, db') =>
          let newUser : PublicUser :=
            ⟨newId, body.full_name.getD "", email, finalRole, student_id⟩
          (.created 201 (sign ⟨newId, finalRole⟩) newUser, db')

def msgMissingFieldsReg2 : String :=
  "Todos los campos son obligatorios."
def msgInvalidDomain2 : String :=
  "Solo correos @ucq.edu.mx permitidos."
def msgMatriculaMismatch2 : String :=
  "La matrícula no coincide con el correo."
def msgDuplicateUser2 : String :=
  "El correo o matrícula ya están registrados."

/-- `POST /api/register`, second revision (server.js lines 355-418): the
same pipeline as `register`, except that the no-digit-run and mismatch
cases are merged into the one check
`if (!match || match[0] !== student_id)` returning a single 400 message,
and the error messages are shortened. -/
def register2 (bhash : String → Nat → String) (sign : Claims → String)
    (db : UsersDb) (body : RegisterBody) : RegisterResult × UsersDb :=
  if !regFieldsPresent body then
    (.err 400 msgMissingFieldsReg2, db)
  else
    let email := body.email.getD ""
    let student_id := body.student_id.getD ""
    if !regDomainOk email then
      (.err 400 msgInvalidDomain2, db)
    else
      let digits := trailingDigits (localPart email)
      if digits == "" || digits != student_id then
        (.err 400 msgMatriculaMismatch2, db)
      else
        let finalRole := "client"
        let hashedPassword := bhash (body.password.getD "") 10
        match insertUser db (body.full_name.getD "") email hashedPassword
            (body.phone.getD "") finalRole student_id with
        | .error () => (.err 400 msgDuplicateUser2, db)
        | .ok (newId, db') =>
          let newUser : PublicUser :=
            ⟨newId, body.full_name.getD "", email, finalRole, student_id⟩
          (.created 201 (sign ⟨newId, finalRole⟩) newUser, db')

/-- The user view returned by `POST /api/login` (no `password_hash`,
no `student_id`). -/
structure LoginUserView where
  id : Nat
  full_name : String
  email : String
  role : String
deriving Repr, DecidableEq

/-- Outcome of `POST /api/login`. -/
inductive LoginResult
  | err (status : Nat) (message : String)
  | ok (status : Nat) (token : String) (user : LoginUserView)
deriving Repr, DecidableEq

/-- `SELECT * FROM users WHERE email = ?` followed by `rows[0]`: the first
row whose email equals the submitted one. -/
def findUserByEmail (db : UsersDb) (email : String) : Option UserRow :=
  db.users.find? (fun u => u.email == email)

/-- `POST /api/login` (server.js lines 143-176). `bcompare` is
`bcrypt.compare` (submitted password, stored hash). The source's single
condition `!user || !(await bcrypt.compare(...))` produces one response. -/
def login (bcompare : String → String → Bool) (sign : Claims → String)
    (db : UsersDb) (email password : String) : LoginResult :=
  match findUserByEmail db email with
  | none => .err 401 msgInvalidCredentials
  | some user =>
    if !bcompare password user.password_hash then
      .err 401 msgInvalidCredentials
    else
      .ok 200 (sign ⟨user.id, user.role⟩)
        ⟨user.id, user.full_name, user.email, user.role⟩

/-- Outcome of `jwt.verify(token, secret, cb)`: the callback receives
either an error (bad signature, malformed, or expired — the middleware
never inspects which) or the decoded claims. -/
inductive VerifyOutcome
  | failed
  | ok (claims : Claims)
deriving Repr, DecidableEq

/-- `s.split(' ')[1]`: the second single-space-separated field — the run
of characters after the first space and before the next one (`none`, i.e.
`undefined`, when the string has no space at all). -/
def splitIndexOne (s : List Char) : Option (List Char) :=
  if s.contains ' ' then
    some (((s.dropWhile (fun c => c != ' ')).drop 1).takeWhile (fun c => c != ' '))
  else none

/-- `const token = authHeader && authHeader.split(' ')[1]` followed by the
`if (!token)` falsiness check: `none` when the header is absent, has no
second space-separated field, or that field is empty. -/
def bearerToken (authHeader : Option String) : Option String :=
  match authHeader with
  | none => none
  | some h =>
    match splitIndexOne h.toList with
    | none => none
    | some t => if t == [] then none else some (String.mk t)

/-- Result of a middleware chain: either some middleware halted with a
JSON error response, or control reached the handler with value `a`. -/
inductive Guarded (α : Type)
  | reject (status : Nat) (message : String)
  | pass (a : α)
deriving Repr, DecidableEq

/-- The `verifyToken` middleware (server.js lines 32-48): missing bearer
token → 401; `jwt.verify` failure → 401; success attaches the decoded
claims as `req.user`. -/
def runVerifyToken (verify : String → VerifyOutcome) (authHeader : Option String) :
    Guarded Claims :=
  match bearerToken authHeader with
  | none => .reject 401 msgMissingToken
  | some t =>
    match verify t with
    | .failed => .reject 401 msgInvalidToken
    | .ok u => .pass u

/-- The `isShop` middleware (server.js lines 51-58): passes iff the decoded
role claim equals `'shop'`. -/
def runIsShop (user : Claims) : Guarded Claims :=
  if user.role == "shop" then .pass user
  else .reject 403 msgForbidden

/-- A route guarded by both stages (`verifyToken, isShop, handler`): the
handler runs only when token verification succeeds and the role is
`'shop'`. -/
def guardedShopRoute {α : Type} (verify : String → VerifyOutcome)
    (authHeader : Option String) (handler : Claims → α) : Guarded α :=
  match runVerifyToken verify authHeader with
  | .reject s m => .reject s m
  | .pass u =>
    match runIsShop u with
    | .reject s m => .reject s m
    | .pass u2 => .pass (handler u2)

/-- One row of the `orders` table. `created_at` is the row's creation
timestamp (a `DEFAULT NOW()` column, supplied to the insert model as a
clock value). -/
structure OrderRow where
  id : Nat
  user_id : Nat
  shop_id : String
  total_amount : Nat
  building : String
  classroom : String
  delivery_notes : String
  status : String
  created_at : Nat
deriving Repr, DecidableEq

/-- The `orders` table together with its auto-increment counter. -/
structure OrdersDb where
  orders : List OrderRow
  nextId : Nat
deriving Repr, DecidableEq

/-- Body of `POST /api/orders`. The handler destructures
`shop_id, total_amount, building, classroom, delivery_notes`; a `user_id`
key in the body is never read (the id comes from the token). -/
structure OrderBody where
  user_id : Option Nat
  shop_id : Option String
  total_amount : Option Nat
  building : Option String
  classroom : Option String
  delivery_notes : Option String
deriving Repr, DecidableEq

/-- Outcome of `POST /api/orders`: an error JSON, or HTTP 201 with
`{message, order_id}`. -/
inductive CreateOrderResult
  | err (status : Nat) (message : String)
  | created (status : Nat) (order_id : Nat)
deriving Repr, DecidableEq

/-- The conjunction `shop_id && total_amount && building && classroom`
whose negation guards the `MissingFields` fast-fail of `/api/orders`. -/
def orderFieldsPresent (body : OrderBody) : Bool :=
  truthyStr body.shop_id && truthyNat body.total_amount &&
    truthyStr body.building && truthyStr body.classroom

/-- The `POST /api/orders` handler body (server.js lines 182-213), run
with the decoded claims attached by `verifyToken`: `user_id` is taken from
`req.user.id`, status is the constant `'pending'`, `delivery_notes || ''`
defaults the notes. -/
def createOrder (claims : Claims) (body : OrderBody) (db : OrdersDb) (now : Nat) :
    CreateOrderResult × OrdersDb :=
  let user_id := claims.id
  if !orderFieldsPresent body then
    (.err 400 msgMissingOrderFields, db)
  else
    let row : OrderRow :=
      ⟨db.nextId, user_id, body.shop_id.getD "", body.total_amount.getD 0,
        body.building.getD "", body.classroom.getD "",
        body.delivery_notes.getD "", "pending", now⟩
    (.created 201 db.nextId, ⟨db.orders ++ [row], db.nextId + 1⟩)

/-- The full `POST /api/orders` route: `verifyToken` then the handler. -/
def postOrdersRoute (verify : String → VerifyOutcome) (authHeader : Option String)
    (body : OrderBody) (db : OrdersDb) (now : Nat) :
    Guarded (CreateOrderResult × OrdersDb) :=
  match runVerifyToken verify authHeader with
  | .reject s m => .reject s m
  | .pass u => .pass (createOrder u body db now)

/-- `const validStatuses = ['preparing', 'ready', 'delivered', 'cancelled']`. -/
def validStatuses : List String := ["preparing", "ready", "delivered", "cancelled"]

/-- Outcome of `PUT /api/shop/orders/:id`. -/
inductive UpdateOrderResult
  | err (status : Nat) (message : String)
  | ok (status : Nat) (message : String)
deriving Repr, DecidableEq

/-- The `PUT /api/shop/orders/:id` handler body (second revision, lines
499-514): `!status || !validStatuses.includes(status)` → 400; the UPDATE's
`affectedRows` is the number of rows matching the id (the driver connects
with the FOUND_ROWS flag, so matched rows are counted); 0 → 404; else the
matching rows get the new status and the confirmation interpolates the id
and status. -/
def updateOrderStatus (db : OrdersDb) (orderId : Nat) (statusBody : Option String) :
    UpdateOrderResult × OrdersDb :=
  if !(truthyStr statusBody && validStatuses.contains (statusBody.getD "")) then
    (.err 400 msgInvalidStatus, db)
  else
    let st := statusBody.getD ""
    let affected := db.orders.countP (fun o => o.id == orderId)
    if affected == 0 then
      (.err 404 msgOrderNotFound, db)
    else
      (.ok 200 ("Pedido #" ++ toString orderId ++ " actualizado a " ++ st ++ "."),
        ⟨db.orders.map (fun o => if o.id == orderId then { o with status := st } else o),
          db.nextId⟩)

/-- One row of the shop listing: the order columns selected by the query
plus `u.full_name AS client_name, u.phone AS client_phone` from the join. -/
structure ShopOrderView where
  id : Nat
  status : String
  total_amount : Nat
  created_at : Nat
  client_name : String
  client_phone : String
  building : String
  classroom : String
  delivery_notes : String
deriving Repr, DecidableEq

/-- Lookup backing `JOIN users u ON o.user_id = u.id` (ids are unique, so
the first match is the row). -/
def findUserById (users : List UserRow) (uid : Nat) : Option UserRow :=
  users.find? (fun u => u.id == uid)

/-- The SELECT list of the shop-orders query applied to one joined pair:
`none` when the inner join finds no owning user for the order. -/
def joinOrderUser (users : List UserRow) (o : OrderRow) : Option ShopOrderView :=
  (findUserById users o.user_id).map (fun u =>
    ⟨o.id, o.status, o.total_amount, o.created_at, u.full_name, u.phone,
      o.building, o.classroom, o.delivery_notes⟩)

/-- The statuses selected by the second revision's shop listing:
`WHERE o.status IN ('pending', 'preparing', 'ready')` — exactly the
non-terminal statuses of the order enumeration. -/
def activeStatuses : List String := ["pending", "preparing", "ready"]

/-- Comparison backing `ORDER BY o.created_at ASC`. -/
def byCreatedAt (a b : OrderRow) : Prop := a.created_at ≤ b.created_at

instance : DecidableRel byCreatedAt := fun a b => Nat.decLe a.created_at b.created_at

/-- `GET /api/shop/orders`, second revision (lines 484-496): filter to the
non-terminal statuses, order by `created_at` ascending, join each order
with its owning user's name and phone. -/
def shopOrdersQuery2 (users : List UserRow) (orders : List OrderRow) :
    List ShopOrderView :=
  (((orders.filter (fun o => activeStatuses.contains o.status)).insertionSort
      byCreatedAt).filterMap (joinOrderUser users))

/-- `GET /api/shop/orders`, first revision (lines 219-242):
`WHERE o.status = 'pending'` only, otherwise the same query. -/
def shopOrdersQuery1 (users : List UserRow) (orders : List OrderRow) :
    List ShopOrderView :=
  (((orders.filter (fun o => o.status == "pending")).insertionSort
      byCreatedAt).filterMap (joinOrderUser users))

/-- A concrete stand-in for `bcrypt.hash` used by witnesses: records the
cost factor so theorems can observe it. -/
def hashStub (password : String) (cost : Nat) : String :=
  "$stub$" ++ toString cost ++ "$" ++ password

/-- A concrete stand-in for `bcrypt.compare` used by witnesses, matching
`hashStub` at cost 10. -/
def compareStub (password hash : String) : Bool :=
  hash == hashStub password 10

/-- A concrete stand-in for `jwt.sign` used by witnesses. -/
def signStub (c : Claims) : String :=
  "token-" ++ toString c.id ++ "-" ++ c.role

/-- A concrete stand-in for `jwt.verify` used by witnesses: exactly one
accepted token string, decoding to a shop-role claims payload. -/
def stubVerify : String → VerifyOutcome :=
  fun t => if t == "good-shop" then .ok ⟨5, "shop"⟩ else .failed

/-- An empty `users` table with auto-increment at 1. -/
def emptyUsersDb : UsersDb := ⟨[], 1⟩

/-- The spec's concrete registration scenario for Ana Ruiz. -/
def anaBody : RegisterBody :=
  ⟨some "Ana Ruiz", some "aruiz20045@ucq.edu.mx", some "p@ss1234",
    some "4421234567", some "20045", none⟩

/-- The `users` table after Ana Ruiz's successful registration. -/
def anaDb : UsersDb := (register hashStub signStub emptyUsersDb anaBody).2

/-- Ana Ruiz's stored row after registration. -/
def anaRow : UserRow :=
  ⟨1, "Ana Ruiz", "aruiz20045@ucq.edu.mx", hashStub "p@ss1234" 10,
    "4421234567", "client", "20045"⟩

/-- A registration body whose email local part has no trailing digits. -/
def noDigitsBody : RegisterBody :=
  ⟨some "Ana Ruiz", some "ana@ucq.edu.mx", some "p@ss1234",
    some "4421234567", some "20045", none⟩

/-- A registration body with a non-institutional email domain. -/
def gmailBody : RegisterBody :=
  ⟨some "Ana Ruiz", some "aruiz20045@gmail.com", some "p@ss1234",
    some "4421234567", some "20045", none⟩

/-- A registration body whose email ends with the institutional domain in
upper case only. -/
def upperDomainBody : RegisterBody :=
  ⟨some "Ana Ruiz", some "ana20045@UCQ.EDU.MX", some "p@ss1234",
    some "4421234567", some "20045", none⟩

/-- A pending order (id 7) owned by user 1, created at time 3. -/
def wOrder7 : OrderRow := ⟨7, 1, "1", 50, "A", "101", "", "pending", 3⟩

/-- A preparing order (id 8) owned by user 1, created at time 1. -/
def wOrder8 : OrderRow := ⟨8, 1, "1", 20, "B", "202", "", "preparing", 1⟩

/-- A two-order table used by witnesses. -/
def wOrdersDb : OrdersDb := ⟨[wOrder7, wOrder8], 9⟩

/-- An order-creation body carrying a (never-read) `user_id` key. -/
def wOrderBody : OrderBody := ⟨some 99, some "1", some 50, some "A", some "101", none⟩

/-- A delivered order (id 9): in a terminal state. -/
def wOrder9 : OrderRow := ⟨9, 1, "1", 30, "C", "303", "", "delivered", 2⟩

/-- A truthy optional string unwraps (with default) to a nonempty string. -/
theorem truthyStr_getD_ne {o : Option String} (h : truthyStr o = true) :
    o.getD "" ≠ "" := by
  cases o with
  | none => simp [truthyStr] at h
  | some s => simpa [truthyStr] using h

/-- The join of an order with its owning user keeps the order's creation
timestamp. -/
theorem joinOrderUser_created_at {users : List UserRow} {o : OrderRow}
    {v : ShopOrderView} (h : joinOrderUser users o = some v) :
    v.created_at = o.created_at := by
  unfold joinOrderUser at h
  cases hf : findUserById users o.user_id with
  | none => rw [hf] at h; cases h
  | some u => rw [hf] at h; cases h; rfl

instance : IsTotal OrderRow byCreatedAt :=
  ⟨fun a b => Nat.le_total a.created_at b.created_at⟩

instance : IsTrans OrderRow byCreatedAt :=
  ⟨fun _ _ _ => Nat.le_trans⟩

/-- C1 (amended): for every registration request with all five required
fields present (truthy) and a valid institutional domain, the maximal
trailing run of digits of the email's local part decides the next check.
In the first revision the two failures are distinct fast-fail errors: an
empty run yields the `MissingStudentIdInEmail` message, and a nonempty
run not string-equal (literal `!==`, no numeric coercion) to the
submitted `student_id` yields the different `StudentIdMismatch` message.
In the second revision the two cases are merged by
`if (!match || match[0] !== student_id)` into one identical 400 response,
so no distinct `MissingStudentIdInEmail` error exists there. -/
theorem registration_trailing_digit_rule
    (bhash : String → Nat → String) (sign : Claims → String)
    (db : UsersDb) (body : RegisterBody)
    (hfields : regFieldsPresent body = true)
    (hdomain : regDomainOk (body.email.getD "") = true) :
    (trailingDigits (localPart (body.email.getD "")) = "" →
      (register bhash sign db body).1 = .err 400 msgMissingMatricula) ∧
    (∀ d, trailingDigits (localPart (body.email.getD "")) = d → d ≠ "" →
      d ≠ body.student_id.getD "" →
      (register bhash sign db body).1 = .err 400 msgStudentIdMismatch) ∧
    msgMissingMatricula ≠ msgStudentIdMismatch ∧
    (trailingDigits (localPart (body.email.getD "")) = "" →
      (register2 bhash sign db body).1 = .err 400 msgMatriculaMismatch2) ∧
    (∀ d, trailingDigits (localPart (body.email.getD "")) = d →
      d ≠ body.student_id.getD "" →
      (register2 bhash sign db body).1 = .err 400 msgMatriculaMismatch2) := by
  refine ⟨?_, ?_, by decide, ?_, ?_⟩
  · intro h
    simp [register, hfields, hdomain, h]
  · intro d hd hne hnsid
    simp [register, hfields, hdomain, hd, hne, hnsid]
  · intro h
    simp [register2, hfields, hdomain, h]
  · intro d hd hnsid
    simp [register2, hfields, hdomain, hd, hnsid]

/-- Witness for C1 at concrete inputs: in the first revision, the email
`ana@ucq.edu.mx` (no trailing digits) is rejected as missing the student
id while `aruiz20045@ucq.edu.mx` with submitted id `99999` draws the
distinct mismatch message; in the second revision the same two requests
draw one shared message. -/
theorem registration_trailing_digit_rule_witness :
    regFieldsPresent noDigitsBody = true ∧
    regDomainOk (noDigitsBody.email.getD "") = true ∧
    (register hashStub signStub emptyUsersDb noDigitsBody).1 =
      .err 400 msgMissingMatricula ∧
    (register hashStub signStub emptyUsersDb
      { anaBody with student_id := some "99999" }).1 = .err 400 msgStudentIdMismatch ∧
    (register2 hashStub signStub emptyUsersDb noDigitsBody).1 =
      .err 400 msgMatriculaMismatch2 ∧
    (register2 hashStub signStub emptyUsersDb
      { anaBody with student_id := some "99999" }).1 = .err 400 msgMatriculaMismatch2 :=
  ⟨by decide, by decide,
    (registration_trailing_digit_rule hashStub signStub emptyUsersDb noDigitsBody
      (by decide) (by decide)).1 (by decide),
    (registration_trailing_digit_rule hashStub signStub emptyUsersDb
      { anaBody with student_id := some "99999" } (by decide) (by decide)).2.1
      "20045" (by decide) (by decide) (by decide),
    (registration_trailing_digit_rule hashStub signStub emptyUsersDb noDigitsBody
      (by decide) (by decide)).2.2.2.1 (by decide),
    (registration_trailing_digit_rule hashStub signStub emptyUsersDb
      { anaBody with student_id := some "99999" } (by decide) (by decide)).2.2.2.2
      "20045" (by decide) (by decide)⟩

/-- Counterexample for C1 as stated: in the second revision (the claim's
cited lines 377-382), a request whose email local part has no trailing
digit run and a request whose trailing run mismatches the submitted
student id receive the IDENTICAL 400 response — the merged check
`if (!match || match[0] !== student_id)` leaves no distinct
`MissingStudentIdInEmail` error. -/
theorem registration_trailing_digit_rule_counterexample :
    regFieldsPresent noDigitsBody = true ∧
    regDomainOk (noDigitsBody.email.getD "") = true ∧
    trailingDigits (localPart (noDigitsBody.email.getD "")) = "" ∧
    trailingDigits (localPart "aruiz20045@ucq.edu.mx") = "20045" ∧
    (register2 hashStub signStub emptyUsersDb noDigitsBody).1 =
      (register2 hashStub signStub emptyUsersDb
        { anaBody with student_id := some "99999" }).1 := by
  decide

/-- C3 (amended): for every registration request with all five required
fields present, if the email's LOWERCASED form does not end with
`@ucq.edu.mx` the result is the `InvalidDomain` error. (The claim's
further clause — that every email not literally ending in `@ucq.edu.mx`
yields `InvalidDomain` — fails: the check is case-insensitive, see the
counterexample.) -/
theorem registration_invalid_domain
    (bhash : String → Nat → String) (sign : Claims → String)
    (db : UsersDb) (body : RegisterBody)
    (hfields : regFieldsPresent body = true)
    (hdomain : regDomainOk (body.email.getD "") = false) :
    (register bhash sign db body).1 = .err 400 msgInvalidDomain := by
  simp [register, hfields, hdomain]

/-- Witness for C3: a gmail address is rejected with `InvalidDomain`. -/
theorem registration_invalid_domain_witness :
    regFieldsPresent gmailBody = true ∧
    regDomainOk (gmailBody.email.getD "") = false ∧
    (register hashStub signStub emptyUsersDb gmailBody).1 =
      .err 400 msgInvalidDomain :=
  ⟨by decide, by decide,
    registration_invalid_domain hashStub signStub emptyUsersDb gmailBody
      (by decide) (by decide)⟩

/-- Counterexample for C3 as stated: the email `ana20045@UCQ.EDU.MX` does
NOT end with the literal suffix `@ucq.edu.mx`, yet registration does not
return `InvalidDomain` — it succeeds with HTTP 201, because the code
lowercases the email before the suffix test. -/
theorem registration_invalid_domain_counterexample :
    jsEndsWith "ana20045@UCQ.EDU.MX" "@ucq.edu.mx" = false ∧
    (register hashStub signStub emptyUsersDb upperDomainBody).1 =
      .created 201 "token-1-client"
        ⟨1, "Ana Ruiz", "ana20045@UCQ.EDU.MX", "client", "20045"⟩ := by
  decide

/-- C4: for every login request, an email that matches no user and an
email that matches a user whose stored hash rejects the submitted password
produce the one identical `InvalidCredentials` response with HTTP 401; the
response does not reveal which check failed. -/
theorem login_indistinguishable_failures
    (bcompare : String → String → Bool) (sign : Claims → String)
    (db : UsersDb) (email password : String) :
    (findUserByEmail db email = none →
      login bcompare sign db email password = .err 401 msgInvalidCredentials) ∧
    (∀ u, findUserByEmail db email = some u →
      bcompare password u.password_hash = false →
      login bcompare sign db email password = .err 401 msgInvalidCredentials) := by
  constructor
  · intro h
    simp [login, h]
  · intro u hu hc
    simp [login, hu, hc]

/-- Witness for C4: against the table holding only Ana Ruiz's row, a login
with an unknown email and a login with Ana's email but a wrong password
both produce the identical 401 response. -/
theorem login_indistinguishable_failures_witness :
    findUserByEmail anaDb "nadie@ucq.edu.mx" = none ∧
    login compareStub signStub anaDb "nadie@ucq.edu.mx" "p@ss1234" =
      .err 401 msgInvalidCredentials ∧
    findUserByEmail anaDb "aruiz20045@ucq.edu.mx" = some anaRow ∧
    compareStub "wrongpw" anaRow.password_hash = false ∧
    login compareStub signStub anaDb "aruiz20045@ucq.edu.mx" "wrongpw" =
      .err 401 msgInvalidCredentials :=
  ⟨by decide,
    (login_indistinguishable_failures compareStub signStub anaDb
      "nadie@ucq.edu.mx" "p@ss1234").1 (by decide),
    by decide, by decide,
    (login_indistinguishable_failures compareStub signStub anaDb
      "aruiz20045@ucq.edu.mx" "wrongpw").2 anaRow (by decide) (by decide)⟩

/-- C5: for every registration request that passes all validation and hits
no uniqueness collision, the stored row's hash is the salted adaptive hash
of the password at cost factor 10, the row's role is the constant
`'client'`, and the response is HTTP 201 carrying the signed token for the
new id with role `'client'` and a public user view (id, full name, email,
role `'client'`, student id — no password-hash field) — all independent of
any caller-supplied `role` key, which the handler never reads. -/
theorem registration_success_contract
    (bhash : String → Nat → String) (sign : Claims → String)
    (db : UsersDb) (body : RegisterBody)
    (hfields : regFieldsPresent body = true)
    (hdomain : regDomainOk (body.email.getD "") = true)
    (hdig : trailingDigits (localPart (body.email.getD "")) = body.student_id.getD "")
    (hnodup : db.users.any (fun u => u.email == body.email.getD "" ||
      u.student_id == body.student_id.getD "") = false) :
    (register bhash sign db body).1 =
      .created 201 (sign ⟨db.nextId, "client"⟩)
        ⟨db.nextId, body.full_name.getD "", body.email.getD "", "client",
          body.student_id.getD ""⟩ ∧
    (register bhash sign db body).2.users =
      db.users ++ [⟨db.nextId, body.full_name.getD "", body.email.getD "",
        bhash (body.password.getD "") 10, body.phone.getD "", "client",
        body.student_id.getD ""⟩] ∧
    (∀ r, register bhash sign db { body with role := r } =
      register bhash sign db body) := by
  have hsid : truthyStr body.student_id = true := by
    simp [regFieldsPresent] at hfields
    exact hfields.2
  have hne : trailingDigits (localPart (body.email.getD "")) ≠ "" := by
    rw [hdig]
    exact truthyStr_getD_ne hsid
  refine ⟨?_, ?_, fun r => rfl⟩
  · simp [register, hfields, hdomain, hdig, truthyStr_getD_ne hsid,
      insertUser, hnodup]
  · simp [register, hfields, hdomain, hdig, truthyStr_getD_ne hsid,
      insertUser, hnodup]

/-- Witness for C5: the spec's concrete Ana Ruiz registration on an empty
table yields 201, role `client`, the cost-10 hash in the stored row, and a
role-`client` public view. -/
theorem registration_success_contract_witness :
    regFieldsPresent anaBody = true ∧
    regDomainOk (anaBody.email.getD "") = true ∧
    trailingDigits (localPart (anaBody.email.getD "")) = anaBody.student_id.getD "" ∧
    ((register hashStub signStub emptyUsersDb anaBody).1 =
      .created 201 (signStub ⟨1, "client"⟩)
        ⟨1, "Ana Ruiz", "aruiz20045@ucq.edu.mx", "client", "20045"⟩ ∧
    (register hashStub signStub emptyUsersDb anaBody).2.users =
      [⟨1, "Ana Ruiz", "aruiz20045@ucq.edu.mx", hashStub "p@ss1234" 10,
        "4421234567", "client", "20045"⟩] ∧
    (∀ r, register hashStub signStub emptyUsersDb { anaBody with role := r } =
      register hashStub signStub emptyUsersDb anaBody)) :=
  ⟨by decide, by decide, by decide,
    registration_success_contract hashStub signStub emptyUsersDb anaBody
      (by decide) (by decide) (by decide) (by decide)⟩

/-- C9: for every registration request that passes validation but collides
at insert time with an existing row on email or on student id, the result
is the single `DuplicateUser` error (HTTP 400) whose message does not name
the colliding column — the hypothesis is the disjunction of the two
collisions and the conclusion one fixed response. -/
theorem registration_duplicate_user
    (bhash : String → Nat → String) (sign : Claims → String)
    (db : UsersDb) (body : RegisterBody)
    (hfields : regFieldsPresent body = true)
    (hdomain : regDomainOk (body.email.getD "") = true)
    (hdig : trailingDigits (localPart (body.email.getD "")) = body.student_id.getD "")
    (hdup : db.users.any (fun u => u.email == body.email.getD "" ||
      u.student_id == body.student_id.getD "") = true) :
    register bhash sign db body = (.err 400 msgDuplicateUser, db) := by
  have hsid : truthyStr body.student_id = true := by
    simp [regFieldsPresent] at hfields
    exact hfields.2
  simp [register, hfields, hdomain, hdig, truthyStr_getD_ne hsid,
    insertUser, hdup]

/-- Witness for C9: registering Ana Ruiz once succeeds with 201; the
identical second request collides on her email (and student id) and yields
`DuplicateUser`. -/
theorem registration_duplicate_user_witness :
    (register hashStub signStub emptyUsersDb anaBody).1 =
      .created 201 "token-1-client"
        ⟨1, "Ana Ruiz", "aruiz20045@ucq.edu.mx", "client", "20045"⟩ ∧
    regFieldsPresent anaBody = true ∧
    anaDb.users.any (fun u => u.email == anaBody.email.getD "" ||
      u.student_id == anaBody.student_id.getD "") = true ∧
    register hashStub signStub anaDb anaBody = (.err 400 msgDuplicateUser, anaDb) :=
  ⟨by decide, by decide, by decide,
    registration_duplicate_user hashStub signStub anaDb anaBody
      (by decide) (by decide) (by decide) (by decide)⟩

/-- C2: for every request to a route guarded by both stages and for every
behavior of the token verifier: a request with no bearer token is rejected
401 `MissingToken`; a token failing verification (bad signature, malformed
or expired — one undistinguished failure outcome) is rejected 401
`InvalidToken`, one fixed response body; a verified token whose role claim
is not `'shop'` is rejected 403 `Forbidden`; the handler runs exactly when
verification succeeds and the role claim equals `'shop'`. -/
theorem guard_chain_spec {α : Type} (verify : String → VerifyOutcome)
    (authHeader : Option String) (handler : Claims → α) :
    (bearerToken authHeader = none →
      guardedShopRoute verify authHeader handler = .reject 401 msgMissingToken) ∧
    (∀ t, bearerToken authHeader = some t → verify t = .failed →
      guardedShopRoute verify authHeader handler = .reject 401 msgInvalidToken) ∧
    (∀ t u, bearerToken authHeader = some t → verify t = .ok u → u.role ≠ "shop" →
      guardedShopRoute verify authHeader handler = .reject 403 msgForbidden) ∧
    (∀ t u, bearerToken authHeader = some t → verify t = .ok u → u.role = "shop" →
      guardedShopRoute verify authHeader handler = .pass (handler u)) ∧
    (∀ a, guardedShopRoute verify authHeader handler = .pass a →
      ∃ t u, bearerToken authHeader = some t ∧ verify t = .ok u ∧
        u.role = "shop" ∧ a = handler u) := by
  refine ⟨?_, ?_, ?_, ?_, ?_⟩
  · intro h
    simp [guardedShopRoute, runVerifyToken, h]
  · intro t ht hv
    simp [guardedShopRoute, runVerifyToken, ht, hv]
  · intro t u ht hv hr
    simp [guardedShopRoute, runVerifyToken, runIsShop, ht, hv, hr]
  · intro t u ht hv hr
    simp [guardedShopRoute, runVerifyToken, runIsShop, ht, hv, hr]
  · intro a ha
    unfold guardedShopRoute runVerifyToken runIsShop at ha
    cases hbt : bearerToken authHeader with
    | none => rw [hbt] at ha; cases ha
    | some t =>
      rw [hbt] at ha
      cases hv : verify t with
      | failed => simp [hv] at ha
      | ok u =>
        by_cases hr : u.role = "shop"
        · simp [hv, hr] at ha
          exact ⟨t, u, rfl, hv, hr, ha.symm⟩
        · simp [hv, hr] at ha

/-- Witness for C2: with a verifier accepting exactly the token
`good-shop` as a shop-role identity, the four guard outcomes are realized
at concrete headers. -/
theorem guard_chain_spec_witness :
    bearerToken (none : Option String) = none ∧
    guardedShopRoute stubVerify none (fun u : Claims => u.id) =
      .reject 401 msgMissingToken ∧
    bearerToken (some "Bearer bad") = some "bad" ∧
    stubVerify "bad" = .failed ∧
    guardedShopRoute stubVerify (some "Bearer bad") (fun u : Claims => u.id) =
      .reject 401 msgInvalidToken ∧
    bearerToken (some "Bearer good-shop") = some "good-shop" ∧
    stubVerify "good-shop" = .ok ⟨5, "shop"⟩ ∧
    guardedShopRoute stubVerify (some "Bearer good-shop") (fun u : Claims => u.id) =
      .pass 5 :=
  ⟨by decide,
    (guard_chain_spec stubVerify none (fun u : Claims => u.id)).1 (by decide),
    by decide, by decide,
    (guard_chain_spec stubVerify (some "Bearer bad") (fun u : Claims => u.id)).2.1
      "bad" (by decide) (by decide),
    by decide, by decide,
    (guard_chain_spec stubVerify (some "Bearer good-shop")
      (fun u : Claims => u.id)).2.2.2.1 "good-shop" ⟨5, "shop"⟩
      (by decide) (by decide) rfl⟩

/-- C6: for every order-status update by a shop actor: a missing or
non-enumerated body status yields `InvalidStatus` (400) and leaves the
table unchanged; an enumerated status with no row matching the path id
yields `OrderNotFound` (404); otherwise the matching row's status is set
to the new value with HTTP 200 — unconditionally, with no hypothesis on
(hence no validation of) the order's current status. -/
theorem update_order_status_spec (db : OrdersDb) (orderId : Nat)
    (statusBody : Option String) :
    ((truthyStr statusBody && validStatuses.contains (statusBody.getD "")) = false →
      updateOrderStatus db orderId statusBody = (.err 400 msgInvalidStatus, db)) ∧
    (∀ st, statusBody = some st → validStatuses.contains st = true →
      ((db.orders.countP (fun o => o.id == orderId) = 0 →
        updateOrderStatus db orderId statusBody = (.err 404 msgOrderNotFound, db)) ∧
      (db.orders.countP (fun o => o.id == orderId) ≠ 0 →
        updateOrderStatus db orderId statusBody =
          (.ok 200 ("Pedido #" ++ toString orderId ++ " actualizado a " ++ st ++ "."),
            ⟨db.orders.map (fun o => if o.id == orderId then { o with status := st } else o),
              db.nextId⟩)))) := by
  constructor
  · intro h
    unfold updateOrderStatus
    rw [h]
    simp
  · intro st hst hin
    have hmem : st ∈ validStatuses := List.elem_iff.mp hin
    have hne : st ≠ "" := by
      have h2 := hmem
      simp [validStatuses] at h2
      rcases h2 with h | h | h | h <;> simp [h]
    subst hst
    have hcond : (truthyStr (some st) &&
        validStatuses.contains ((some st).getD "")) = true := by
      simp [truthyStr, hne]
      exact hmem
    constructor
    · intro h0
      unfold updateOrderStatus
      rw [hcond]
      simp [h0]
    · intro h0
      unfold updateOrderStatus
      rw [hcond]
      simp [h0]

/-- Witness for C6 at the spec's concrete scenario: updating existing
pending order 7 to `ready` yields 200 and rewrites its row; the same call
with a non-existent id 999 yields 404; and a terminal `delivered` order is
moved back to `preparing` without complaint (no transition validation). -/
theorem update_order_status_spec_witness :
    validStatuses.contains "ready" = true ∧
    wOrdersDb.orders.countP (fun o => o.id == 7) ≠ 0 ∧
    updateOrderStatus wOrdersDb 7 (some "ready") =
      (.ok 200 ("Pedido #" ++ toString 7 ++ " actualizado a " ++ "ready" ++ "."),
        ⟨wOrdersDb.orders.map (fun o => if o.id == 7 then { o with status := "ready" } else o),
          wOrdersDb.nextId⟩) ∧
    updateOrderStatus wOrdersDb 999 (some "ready") =
      (.err 404 msgOrderNotFound, wOrdersDb) ∧
    updateOrderStatus ⟨[wOrder9], 10⟩ 9 (some "preparing") =
      (.ok 200 "Pedido #9 actualizado a preparing.",
        ⟨[⟨9, 1, "1", 30, "C", "303", "", "preparing", 2⟩], 10⟩) :=
  ⟨by decide, by decide,
    ((update_order_status_spec wOrdersDb 7 (some "ready")).2 "ready" rfl
      (by decide)).2 (by decide),
    ((update_order_status_spec wOrdersDb 999 (some "ready")).2 "ready" rfl
      (by decide)).1 (by decide),
    by decide⟩

/-- C7: for every authenticated order-creation request, the inserted
order's `user_id` is the verified token's id claim, the status is the
constant `'pending'`, missing `shop_id`/`total_amount`/`building`/
`classroom` yields `MissingFields` (400), success yields 201 with the new
order's id — and the result never depends on a `user_id` key in the body;
without a bearer token the route rejects 401 `MissingToken` regardless of
the body. -/
theorem create_order_route_spec (verify : String → VerifyOutcome)
    (authHeader : Option String) (body : OrderBody) (db : OrdersDb) (now : Nat) :
    (bearerToken authHeader = none →
      postOrdersRoute verify authHeader body db now = .reject 401 msgMissingToken) ∧
    (∀ t u, bearerToken authHeader = some t → verify t = .ok u →
      ((orderFieldsPresent body = false →
        postOrdersRoute verify authHeader body db now =
          .pass (.err 400 msgMissingOrderFields, db)) ∧
      (orderFieldsPresent body = true →
        postOrdersRoute verify authHeader body db now =
          .pass (.created 201 db.nextId,
            ⟨db.orders ++ [⟨db.nextId, u.id, body.shop_id.getD "",
              body.total_amount.getD 0, body.building.getD "",
              body.classroom.getD "", body.delivery_notes.getD "",
              "pending", now⟩], db.nextId + 1⟩)))) ∧
    (∀ v, postOrdersRoute verify authHeader { body with user_id := v } db now =
      postOrdersRoute verify authHeader body db now) := by
  refine ⟨?_, ?_, fun v => rfl⟩
  · intro h
    simp [postOrdersRoute, runVerifyToken, h]
  · intro t u ht hv
    constructor
    · intro hmiss
      simp [postOrdersRoute, runVerifyToken, ht, hv, createOrder, hmiss]
    · intro hpres
      simp [postOrdersRoute, runVerifyToken, ht, hv, createOrder, hpres]

/-- Witness for C7: without a bearer token the route rejects 401 even with
a complete body; with a verified shop token, the same body (carrying a
decoy `user_id` of 99) creates order 1 owned by the token's id 5 with
status `pending`. -/
theorem create_order_route_spec_witness :
    bearerToken (none : Option String) = none ∧
    postOrdersRoute stubVerify none wOrderBody ⟨[], 1⟩ 0 =
      .reject 401 msgMissingToken ∧
    bearerToken (some "Bearer good-shop") = some "good-shop" ∧
    stubVerify "good-shop" = .ok ⟨5, "shop"⟩ ∧
    orderFieldsPresent wOrderBody = true ∧
    postOrdersRoute stubVerify (some "Bearer good-shop") wOrderBody ⟨[], 1⟩ 0 =
      .pass (.created 201 1, ⟨[⟨1, 5, "1", 50, "A", "101", "", "pending", 0⟩], 2⟩) :=
  ⟨by decide,
    (create_order_route_spec stubVerify none wOrderBody ⟨[], 1⟩ 0).1 (by decide),
    by decide, by decide, by decide,
    ((create_order_route_spec stubVerify (some "Bearer good-shop") wOrderBody
      ⟨[], 1⟩ 0).2.1 "good-shop" ⟨5, "shop"⟩ (by decide) (by decide)).2 (by decide)⟩

/-- C10: required-field presence is decided by JavaScript truthiness, not
key presence: an order body whose `total_amount` is 0, or whose `shop_id`,
`building` or `classroom` is the empty string, is rejected as
`MissingFields` even though the key is present; likewise a registration
body with any required field equal to the empty string. -/
theorem truthiness_required_fields (claims : Claims) (body : OrderBody)
    (db : OrdersDb) (now : Nat) (bhash : String → Nat → String)
    (sign : Claims → String) (udb : UsersDb) (rbody : RegisterBody) :
    (body.total_amount = some 0 →
      createOrder claims body db now = (.err 400 msgMissingOrderFields, db)) ∧
    (body.shop_id = some "" →
      createOrder claims body db now = (.err 400 msgMissingOrderFields, db)) ∧
    (body.building = some "" →
      createOrder claims body db now = (.err 400 msgMissingOrderFields, db)) ∧
    (body.classroom = some "" →
      createOrder claims body db now = (.err 400 msgMissingOrderFields, db)) ∧
    ((rbody.full_name = some "" ∨ rbody.email = some "" ∨ rbody.password = some "" ∨
      rbody.phone = some "" ∨ rbody.student_id = some "") →
      (register bhash sign udb rbody).1 = .err 400 msgMissingFieldsReg) := by
  refine ⟨?_, ?_, ?_, ?_, ?_⟩
  · intro h; simp [createOrder, orderFieldsPresent, h, truthyNat]
  · intro h; simp [createOrder, orderFieldsPresent, h, truthyStr]
  · intro h; simp [createOrder, orderFieldsPresent, h, truthyStr]
  · intro h; simp [createOrder, orderFieldsPresent, h, truthyStr]
  · intro h
    rcases h with h | h | h | h | h <;>
      simp [register, regFieldsPresent, h, truthyStr]

/-- Witness for C10: a body with `total_amount: 0` and a body with
`building: ""` are both rejected as missing fields; a registration body
with `phone: ""` likewise. -/
theorem truthiness_required_fields_witness :
    ({ wOrderBody with total_amount := some 0 } : OrderBody).total_amount = some 0 ∧
    createOrder ⟨5, "shop"⟩ { wOrderBody with total_amount := some 0 } ⟨[], 1⟩ 0 =
      (.err 400 msgMissingOrderFields, ⟨[], 1⟩) ∧
    createOrder ⟨5, "shop"⟩ { wOrderBody with building := some "" } ⟨[], 1⟩ 0 =
      (.err 400 msgMissingOrderFields, ⟨[], 1⟩) ∧
    (register hashStub signStub emptyUsersDb { anaBody with phone := some "" }).1 =
      .err 400 msgMissingFieldsReg :=
  ⟨rfl,
    (truthiness_required_fields ⟨5, "shop"⟩ { wOrderBody with total_amount := some 0 }
      ⟨[], 1⟩ 0 hashStub signStub emptyUsersDb anaBody).1 rfl,
    (truthiness_required_fields ⟨5, "shop"⟩ { wOrderBody with building := some "" }
      ⟨[], 1⟩ 0 hashStub signStub emptyUsersDb anaBody).2.2.1 rfl,
    (truthiness_required_fields ⟨5, "shop"⟩ wOrderBody ⟨[], 1⟩ 0 hashStub signStub
      emptyUsersDb { anaBody with phone := some "" }).2.2.2.2
      (Or.inr (Or.inr (Or.inr (Or.inl rfl))))⟩

/-- C8 (amended): the second revision's shop listing contains exactly the
orders whose status is in {pending, preparing, ready} — precisely the
non-terminal statuses — while the first revision's contains exactly the
orders with status `pending` (omitting non-terminal `preparing`/`ready`
ones); in both, each row is the order joined with its owning user's full
name and phone, and the list is ordered by creation time ascending. -/
theorem shop_orders_listing_spec (users : List UserRow) (orders : List OrderRow) :
    (∀ v, v ∈ shopOrdersQuery2 users orders ↔
      ∃ o, o ∈ orders ∧ activeStatuses.contains o.status = true ∧
        joinOrderUser users o = some v) ∧
    (∀ v, v ∈ shopOrdersQuery1 users orders ↔
      ∃ o, o ∈ orders ∧ o.status = "pending" ∧ joinOrderUser users o = some v) ∧
    (shopOrdersQuery2 users orders).Pairwise
      (fun a b => a.created_at ≤ b.created_at) ∧
    (shopOrdersQuery1 users orders).Pairwise
      (fun a b => a.created_at ≤ b.created_at) ∧
    (∀ o u, findUserById users o.user_id = some u →
      joinOrderUser users o = some ⟨o.id, o.status, o.total_amount, o.created_at,
        u.full_name, u.phone, o.building, o.classroom, o.delivery_notes⟩) := by
  refine ⟨?_, ?_, ?_, ?_, ?_⟩
  · intro v
    simp only [shopOrdersQuery2, List.mem_filterMap, List.mem_insertionSort,
      List.mem_filter]
    constructor
    · rintro ⟨o, ⟨ho, hs⟩, hj⟩
      exact ⟨o, ho, hs, hj⟩
    · rintro ⟨o, ho, hs, hj⟩
      exact ⟨o, ⟨ho, hs⟩, hj⟩
  · intro v
    simp only [shopOrdersQuery1, List.mem_filterMap, List.mem_insertionSort,
      List.mem_filter]
    constructor
    · rintro ⟨o, ⟨ho, hs⟩, hj⟩
      exact ⟨o, ho, by simpa using hs, hj⟩
    · rintro ⟨o, ho, hs, hj⟩
      exact ⟨o, ⟨ho, by simpa using hs⟩, hj⟩
  · exact List.Pairwise.filterMap _
      (fun a b hab x hx y hy => by
        rw [joinOrderUser_created_at (Option.mem_def.mp hx),
          joinOrderUser_created_at (Option.mem_def.mp hy)]
        exact hab)
      (List.sorted_insertionSort byCreatedAt _)
  · exact List.Pairwise.filterMap _
      (fun a b hab x hx y hy => by
        rw [joinOrderUser_created_at (Option.mem_def.mp hx),
          joinOrderUser_created_at (Option.mem_def.mp hy)]
        exact hab)
      (List.sorted_insertionSort byCreatedAt _)
  · intro o u h
    simp [joinOrderUser, h]

/-- Witness for C8: on a table holding pending order 7 (time 3) and
preparing order 8 (time 1), both owned by Ana, the second revision lists
both in ascending creation order, and order 8's joined row carries Ana's
name and phone. -/
theorem shop_orders_listing_spec_witness :
    findUserById [anaRow] wOrder8.user_id = some anaRow ∧
    joinOrderUser [anaRow] wOrder8 = some ⟨wOrder8.id, wOrder8.status,
      wOrder8.total_amount, wOrder8.created_at, anaRow.full_name, anaRow.phone,
      wOrder8.building, wOrder8.classroom, wOrder8.delivery_notes⟩ ∧
    (⟨8, "preparing", 20, 1, "Ana Ruiz", "4421234567", "B", "202", ""⟩ : ShopOrderView) ∈
      shopOrdersQuery2 [anaRow] [wOrder7, wOrder8] ∧
    (shopOrdersQuery2 [anaRow] [wOrder7, wOrder8]).Pairwise
      (fun a b => a.created_at ≤ b.created_at) :=
  ⟨by decide,
    (shop_orders_listing_spec [anaRow] [wOrder7, wOrder8]).2.2.2.2 wOrder8 anaRow
      (by decide),
    ((shop_orders_listing_spec [anaRow] [wOrder7, wOrder8]).1
      ⟨8, "preparing", 20, 1, "Ana Ruiz", "4421234567", "B", "202", ""⟩).mpr
      ⟨wOrder8, by decide, by decide, by decide⟩,
    (shop_orders_listing_spec [anaRow] [wOrder7, wOrder8]).2.2.1⟩

/-- Counterexample for C8 as stated: under the first revision's query
(`WHERE o.status = 'pending'`), preparing order 8 — owned by a user the
join would find, and in no terminal state — is absent from the response,
which is empty; so the response does not contain exactly the orders not
yet in a terminal state. -/
theorem shop_orders_listing_counterexample :
    wOrder8 ∈ ([wOrder8] : List OrderRow) ∧
    wOrder8.status = "preparing" ∧
    wOrder8.status ≠ "delivered" ∧
    wOrder8.status ≠ "cancelled" ∧
    findUserById [anaRow] wOrder8.user_id = some anaRow ∧
    shopOrdersQuery1 [anaRow] [wOrder8] = [] := by
  decide

end CuahQuick
